import Mathlib

/-!
Shallow embedding of the microcode-api backend (Python/FastAPI) for
verification of its authentication subsystem, configuration loader and
auth endpoint group.

Conventions of the embedding:
* Time is modelled as a natural number of seconds since the epoch; the
  implicit `datetime.utcnow()` of the source becomes an explicit `now`
  parameter.
* JWTs (library `jose`) are modelled symbolically: a token is either a
  malformed string or a payload signed under some key; signature checking
  is equality of keys (standard symbolic model of a MAC).  `jose`
  rejects a token as expired exactly when its `exp` claim is strictly
  below the current time (leeway 0), which the model mirrors.
* The database session is modelled as a list of user rows threaded
  through the service functions; `commit` of a mutated row replaces the
  rows with the same primary key.
* Python `dict` payloads of tokens are modelled by the `Claims` record
  of the four claims the service reads or writes (`sub`, `email`,
  `exp`, `type`); an absent dict entry is `none`.
* Fallible operations (`raise AuthenticationError`) become `Except`,
  `Optional` results become `Option`.
-/

namespace MicrocodeApi

/-- The configuration fields of `app/core/config.py` that the token
manager reads (`SECRET_KEY`, `ACCESS_TOKEN_EXPIRE_MINUTES`,
`REFRESH_TOKEN_EXPIRE_DAYS`).  Lifetimes are kept in their source units
(minutes resp. days) and converted to seconds at use sites, mirroring
`timedelta(minutes=...)` / `timedelta(days=...)`. -/
structure Settings where
  SECRET_KEY : String
  ACCESS_TOKEN_EXPIRE_MINUTES : Nat
  REFRESH_TOKEN_EXPIRE_DAYS : Nat
deriving DecidableEq, Repr

/-- The JWT claims read or written by `app/auth/service.py`: `sub`,
`email`, `exp` and `type`.  A claim not present in the Python dict is
`none`. -/
structure Claims where
  sub : Option String
  email : Option String
  exp : Option Nat
  type : Option String
deriving DecidableEq, Repr

/-- Symbolic JWT: either a string that does not parse as a JWT at all,
or a payload together with the key its signature was produced with. -/
inductive Token where
  | malformed (raw : String)
  | signed (payload : Claims) (key : String)
deriving DecidableEq, Repr

namespace TokenManager

/-- `TokenManager.create_access_token` (service.py:28-47): copies the
claim dict, sets `exp` to now plus the explicit lifetime (seconds) or,
absent one, now plus `ACCESS_TOKEN_EXPIRE_MINUTES` minutes, sets
`type` to `"access"`, and signs under `SECRET_KEY`. -/
def create_access_token (s : Settings) (now : Nat) (data : Claims)
    (expires_delta : Option Nat) : Token :=
  let expire : Nat :=
    match expires_delta with
    | some d => now + d
    | none => now + s.ACCESS_TOKEN_EXPIRE_MINUTES * 60
  Token.signed { data with exp := some expire, type := some "access" } s.SECRET_KEY

/-- `TokenManager.create_refresh_token` (service.py:49-62): copies the
claim dict, sets `exp` to now plus `REFRESH_TOKEN_EXPIRE_DAYS` days,
sets `type` to `"refresh"`, and signs under `SECRET_KEY`. -/
def create_refresh_token (s : Settings) (now : Nat) (data : Claims) : Token :=
  let expire : Nat := now + s.REFRESH_TOKEN_EXPIRE_DAYS * 86400
  Token.signed { data with exp := some expire, type := some "refresh" } s.SECRET_KEY

/-- `TokenManager.verify_token` (service.py:64-75): decodes and
signature-checks the token against `SECRET_KEY`; any `JWTError`
(malformed input, wrong signature, expired `exp` claim) yields `none`.
`jose` treats a token as expired exactly when `exp < now`. -/
def verify_token (s : Settings) (now : Nat) (t : Token) : Option Claims :=
  match t with
  | Token.malformed _ => none
  | Token.signed payload key =>
    if key = s.SECRET_KEY then
      match payload.exp with
      | some e => if e < now then none else some payload
      | none => some payload
    else none

end TokenManager

/-- A row of the `users` table (`app/models/__init__.py:52-83`).
Column defaults of the schema (`preferred_language = "en"`,
`timezone = "UTC"`, `is_active = true`, `is_verified = false`,
`is_premium = false`) are applied where rows are constructed.
Timestamps are seconds since the epoch. -/
structure User where
  id : String
  email : String
  full_name : Option String
  avatar_url : Option String
  google_id : Option String
  telegram_id : Option String
  github_id : Option String
  preferred_language : String
  timezone : String
  country : Option String
  is_active : Bool
  is_verified : Bool
  is_premium : Bool
  created_at : Option Nat
  updated_at : Option Nat
  last_login : Option Nat
deriving DecidableEq, Repr

/-- The database session, modelled as the list of persisted user rows. -/
abbrev Db : Type := List User

/-- The verified Google identity data returned by
`GoogleAuthProvider.verify_google_token` (service.py:96-102): the dict
with keys `google_id`, `email`, `full_name`, `avatar_url`,
`email_verified` extracted from a successfully verified Google ID
token. -/
structure GoogleData where
  google_id : String
  email : String
  full_name : Option String
  avatar_url : Option String
  email_verified : Bool
deriving DecidableEq, Repr

/-- Committing a mutated ORM row, followed by a refresh: the UPDATE
statement writes the mutated fields and, via the schema's
`onupdate=func.now()` on `updated_at` (models/__init__.py:78), also
stamps `updated_at` with the current time; every stored row with the
same primary key is replaced, and the refreshed in-memory row carries
the stamp as well.  Returns the refreshed row and the new database. -/
def commitUser (now : Nat) (db : Db) (u : User) : User × Db :=
  let u' : User := { u with updated_at := some now }
  (u', (db : List User).map (fun x => if x.id = u'.id then u' else x))

namespace UserService

/-- `UserService.get_user_by_id` (service.py:110-114):
`select(User).where(User.id == user_id)`, first row or none. -/
def get_user_by_id (db : Db) (user_id : String) : Option User :=
  (db : List User).find? (fun u => u.id = user_id)

/-- `UserService.get_user_by_email` (service.py:116-120). -/
def get_user_by_email (db : Db) (email : String) : Option User :=
  (db : List User).find? (fun u => u.email = email)

/-- `UserService.get_user_by_google_id` (service.py:122-126). -/
def get_user_by_google_id (db : Db) (google_id : String) : Option User :=
  (db : List User).find? (fun u => u.google_id = some google_id)

/-- `UserService.create_user_from_google` (service.py:128-146): inserts
a new row with email, full name, avatar and google_id from the Google
data, `is_verified` from its `email_verified` flag, `last_login = now`,
and the schema defaults for every other column; `new_id` stands for the
generated UUID and `created_at` for the server-side insert timestamp. -/
def create_user_from_google (now : Nat) (new_id : String) (db : Db)
    (google_data : GoogleData) : User × Db :=
  let user : User :=
    { id := new_id
      email := google_data.email
      full_name := google_data.full_name
      avatar_url := google_data.avatar_url
      google_id := some google_data.google_id
      telegram_id := none
      github_id := none
      preferred_language := "en"
      timezone := "UTC"
      country := none
      is_active := true
      is_verified := google_data.email_verified
      is_premium := false
      created_at := some now
      updated_at := none
      last_login := some now }
  (user, (db : List User) ++ [user])

/-- `UserService.update_user_login` (service.py:148-154): sets
`last_login = now` on the row, commits (which also stamps
`updated_at` via the schema's `onupdate`), and refreshes. -/
def update_user_login (now : Nat) (db : Db) (user : User) : User × Db :=
  commitUser now db { user with last_login := some now }

end UserService

namespace AuthService

open TokenManager UserService

/-- The user-resolution part of `AuthService.authenticate_with_google`
(service.py:174-196): look up by google_id; else look up by email and,
if found, link the google_id and commit (an UPDATE, which also stamps
`updated_at`); else create a new user from the Google data (an INSERT,
on which the `onupdate` stamp does not apply); in all cases update
`last_login` on the resolved user.  Returns the resolved row and the
resulting database. -/
def resolve_google_user (now : Nat) (new_id : String) (db : Db)
    (google_data : GoogleData) : User × Db :=
  match get_user_by_google_id db google_data.google_id with
  | some user => update_user_login now db user
  | none =>
    match get_user_by_email db google_data.email with
    | some user =>
      let linked := commitUser now db { user with google_id := some google_data.google_id }
      update_user_login now linked.2 linked.1
    | none =>
      let created := create_user_from_google now new_id db google_data
      update_user_login now created.2 created.1

/-- The result dict of `AuthService.authenticate_with_google`
(service.py:206-218): both tokens, the constant token type `"bearer"`,
and the public user projection `id`, `email`, `full_name`,
`avatar_url`, `is_verified`, `is_premium`. -/
structure AuthResult where
  access_token : Token
  refresh_token : Token
  token_type : String
  user_id : String
  user_email : String
  user_full_name : Option String
  user_avatar_url : Option String
  user_is_verified : Bool
  user_is_premium : Bool
deriving DecidableEq, Repr

/-- `AuthService.authenticate_with_google` (service.py:165-218) after a
successful Google verification: resolves the user from the verified
Google data, then issues an access token with claims
`sub = user id, email = user email` and a refresh token with claim
`sub = user id`.  Note the source performs no `is_active` check on this
path. -/
def authenticate_with_google (s : Settings) (now : Nat) (new_id : String)
    (db : Db) (google_data : GoogleData) : AuthResult × Db :=
  let resolved := resolve_google_user now new_id db google_data
  let user := resolved.1
  ({ access_token :=
       create_access_token s now
         { sub := some user.id, email := some user.email, exp := none, type := none } none
     refresh_token :=
       create_refresh_token s now
         { sub := some user.id, email := none, exp := none, type := none }
     token_type := "bearer"
     user_id := user.id
     user_email := user.email
     user_full_name := user.full_name
     user_avatar_url := user.avatar_url
     user_is_verified := user.is_verified
     user_is_premium := user.is_premium }, resolved.2)

/-- `AuthService.refresh_access_token` (service.py:220-245): verify the
token and require its `type` claim to be `"refresh"`, else raise
`AuthenticationError("Invalid refresh token")` (also raised when the
payload dict is empty, which the model subsumes since an empty payload
has no `"refresh"` type claim); look the user up by the `sub` claim and
raise `AuthenticationError("User not found or inactive")` when absent
or inactive; on success return a fresh access token with claims
`sub`, `email` and token type `"bearer"`. -/
def refresh_access_token (s : Settings) (now : Nat) (db : Db)
    (refresh_token : Token) : Except String (Token × String) :=
  match verify_token s now refresh_token with
  | none => Except.error "Invalid refresh token"
  | some payload =>
    if payload.type = some "refresh" then
      match payload.sub.bind (fun uid => get_user_by_id db uid) with
      | some user =>
        if user.is_active then
          Except.ok
            (create_access_token s now
              { sub := some user.id, email := some user.email, exp := none, type := none } none,
             "bearer")
        else Except.error "User not found or inactive"
      | none => Except.error "User not found or inactive"
    else Except.error "Invalid refresh token"

/-- `AuthService.get_current_user` (service.py:247-263): verify the
token and require `type = "access"`; return `none` when verification
fails, the type is wrong, the `sub` claim is missing or empty (Python
`if not user_id`), the user does not exist, or the user is inactive;
otherwise return the user row. -/
def get_current_user (s : Settings) (now : Nat) (db : Db)
    (token : Token) : Option User :=
  match verify_token s now token with
  | none => none
  | some payload =>
    if payload.type = some "access" then
      match payload.sub with
      | none => none
      | some user_id =>
        if user_id = "" then none
        else
          match get_user_by_id db user_id with
          | some user => if user.is_active then some user else none
          | none => none
    else none

end AuthService

namespace Config

/-- A Python string, modelled as its list of characters (needed where
the source manipulates strings character-wise: `split`, `strip`,
`startswith`). -/
abbrev PyStr : Type := List Char

/-- Python `s.split(sep)` for a one-character separator: split at every
occurrence, keeping empty pieces; the empty string yields `[""]`. -/
def pySplit (sep : Char) : PyStr → List PyStr
  | [] => [[]]
  | c :: cs =>
    let rest := pySplit sep cs
    if c = sep then [] :: rest
    else
      match rest with
      | [] => [[c]]
      | piece :: pieces => (c :: piece) :: pieces

/-- Python `s.strip()`: remove leading and trailing whitespace. -/
def pyStrip (s : PyStr) : PyStr :=
  (((s.dropWhile Char.isWhitespace).reverse).dropWhile Char.isWhitespace).reverse

/-- Python `s.startswith("[")`. -/
def startsWithLBracket : PyStr → Bool
  | c :: _ => c = '['
  | [] => false

/-- The runtime type of the raw `BACKEND_CORS_ORIGINS` value handed to
the validator: a string, a list of strings, or a value of any other
type. -/
inductive CorsValue where
  | str (s : PyStr)
  | strList (l : List PyStr)
  | other
deriving DecidableEq, Repr

/-- `Settings.assemble_cors_origins` (config.py:51-57): a string not
starting with `"["` is split on commas and each piece stripped; a list,
or a string starting with `"["`, is returned as-is; any other value
raises `ValueError`, failing configuration load. -/
def assemble_cors_origins (v : CorsValue) : Except String CorsValue :=
  match v with
  | CorsValue.str s =>
    if startsWithLBracket s = false then
      Except.ok (CorsValue.strList ((pySplit ',' s).map pyStrip))
    else Except.ok (CorsValue.str s)
  | CorsValue.strList l => Except.ok (CorsValue.strList l)
  | CorsValue.other => Except.error "ValueError"

/-- Python truthiness of an optional string: `None` and `""` are
falsy. -/
def pyTruthyStr (v : Option String) : Bool :=
  match v with
  | none => false
  | some s => if s = "" then false else true

/-- Python truthiness of an optional integer: `None` and `0` are
falsy. -/
def pyTruthyInt (v : Option Int) : Bool :=
  match v with
  | none => false
  | some n => if n = 0 then false else true

/-- The body of the `EMAILS_FROM_NAME` validator
`Settings.get_project_name` (config.py:107-111): a falsy value (`None`
or the empty string) is replaced by `PROJECT_NAME`.  Note that pydantic
v1 runs this body only when the field is supplied — the validator is
declared without `always=True` — so it does not describe the loaded
value of an unsupplied field (see `load_EMAILS_FROM_NAME`). -/
def get_project_name (v : Option String) (PROJECT_NAME : String) : String :=
  match v with
  | none => PROJECT_NAME
  | some s => if s = "" then PROJECT_NAME else s

/-- The body of the `EMAILS_ENABLED` pre-validator
`Settings.get_emails_enabled` (config.py:117-123): it discards the
supplied value and returns `bool(SMTP_HOST and SMTP_PORT and
EMAILS_FROM_EMAIL)` over the previously validated fields.  Declared
without `always=True`, so pydantic v1 runs it only when the
`EMAILS_ENABLED` field itself is supplied (see
`load_EMAILS_ENABLED`). -/
def get_emails_enabled (SMTP_HOST : Option String) (SMTP_PORT : Option Int)
    (EMAILS_FROM_EMAIL : Option String) : Bool :=
  pyTruthyStr SMTP_HOST && pyTruthyInt SMTP_PORT && pyTruthyStr EMAILS_FROM_EMAIL

/-- The loaded `EMAILS_FROM_NAME`: pydantic v1 skips a validator
declared without `always=True` when the field is not supplied
(pydantic v1 main.py:1059-1068, fields.py:820-822), storing the
declared default `None` unvalidated; only a supplied value passes
through the validator body. -/
def load_EMAILS_FROM_NAME (supplied : Option String) (PROJECT_NAME : String) :
    Option String :=
  match supplied with
  | none => none
  | some s => some (get_project_name (some s) PROJECT_NAME)

/-- The loaded `EMAILS_ENABLED`: when the `EMAILS_ENABLED` environment
variable is not supplied, the non-`always` pre-validator is skipped and
the declared default `False` is stored, whatever the SMTP settings;
only when it is supplied does the validator body run (discarding the
supplied value and computing the derivation). -/
def load_EMAILS_ENABLED (supplied : Bool) (SMTP_HOST : Option String)
    (SMTP_PORT : Option Int) (EMAILS_FROM_EMAIL : Option String) : Bool :=
  if supplied then get_emails_enabled SMTP_HOST SMTP_PORT EMAILS_FROM_EMAIL
  else false

end Config

namespace Endpoints

/-- A JSON value of the `/auth/me` response body, tagged by the Python
type of the projected attribute. -/
inductive PyValue where
  | str (s : String)
  | optStr (s : Option String)
  | bool (b : Bool)
  | optTime (t : Option Nat)
deriving DecidableEq, Repr

/-- The response dict of `GET /auth/me`
(`app/api/v1/endpoints/auth.py:114-124`), as its ordered list of
key/value pairs, built from the resolved current user. -/
def get_current_user_info (u : User) : List (String × PyValue) :=
  [("id", PyValue.str u.id),
   ("email", PyValue.str u.email),
   ("full_name", PyValue.optStr u.full_name),
   ("avatar_url", PyValue.optStr u.avatar_url),
   ("is_verified", PyValue.bool u.is_verified),
   ("is_premium", PyValue.bool u.is_premium),
   ("preferred_language", PyValue.str u.preferred_language),
   ("created_at", PyValue.optTime u.created_at),
   ("last_login", PyValue.optTime u.last_login)]

end Endpoints

/-! ## Theorems about the embedded program -/

open TokenManager UserService AuthService

/-- C6: for every input token, `verify_token` totally computes either
the decoded claim set or an absent result (it is a function into
`Option`, so it never raises past its boundary), and the result is
absent exactly when the token is malformed, its signature was produced
under a key other than the configured one, or its `exp` claim lies
strictly before the current time (`jose` expiry). -/
theorem verify_token_absent_characterization (s : Settings) (now : Nat) (t : Token) :
    verify_token s now t = none ↔
      ((∃ raw, t = Token.malformed raw)
        ∨ (∃ p k, t = Token.signed p k ∧ k ≠ s.SECRET_KEY)
        ∨ (∃ p e, t = Token.signed p s.SECRET_KEY ∧ p.exp = some e ∧ e < now)) := by
  cases t with
  | malformed raw => exact iff_of_true rfl (Or.inl ⟨raw, rfl⟩)
  | signed p k =>
    by_cases hk : k = s.SECRET_KEY
    · subst hk
      cases hexp : p.exp with
      | none =>
        refine iff_of_false (by simp [verify_token, hexp]) ?_
        rintro (⟨raw, hraw⟩ | ⟨p', k', heq, hk'⟩ | ⟨p', e', heq, hexp', he'⟩)
        · exact Token.noConfusion hraw
        · injection heq with h1 h2
          exact hk' h2.symm
        · injection heq with h1 h2
          subst h1
          rw [hexp] at hexp'
          exact Option.noConfusion hexp'
      | some e =>
        by_cases he : e < now
        · refine iff_of_true (by simp [verify_token, hexp, he]) ?_
          exact Or.inr (Or.inr ⟨p, e, rfl, hexp, he⟩)
        · refine iff_of_false (by simp [verify_token, hexp, he]) ?_
          rintro (⟨raw, hraw⟩ | ⟨p', k', heq, hk'⟩ | ⟨p', e', heq, hexp', he'⟩)
          · exact Token.noConfusion hraw
          · injection heq with h1 h2
            exact hk' h2.symm
          · injection heq with h1 h2
            subst h1
            rw [hexp] at hexp'
            injection hexp' with h3
            subst h3
            exact he he'
    · exact iff_of_true (by simp [verify_token, hk]) (Or.inr (Or.inl ⟨p, k, rfl, hk⟩))

/-- Evaluation of `verify_token` on a token freshly produced by
`create_access_token` with the default lifetime: it succeeds with the
original claims (plus `exp` and `type`) unless checked strictly after
the declared expiry. -/
theorem verify_create_access (s : Settings) (now t : Nat) (data : Claims) :
    verify_token s t (create_access_token s now data none) =
      (if now + s.ACCESS_TOKEN_EXPIRE_MINUTES * 60 < t then none
       else some ⟨data.sub, data.email,
         some (now + s.ACCESS_TOKEN_EXPIRE_MINUTES * 60), some "access"⟩) := by
  simp [verify_token, create_access_token]

/-- C5: a token produced by `create_access_token` with the default
lifetime from any claim set containing `sub` and `email`, verified
immediately, yields a claim set with `type = "access"` and the
original `sub` and `email`; verified at any time strictly after its
declared expiry `now + ACCESS_TOKEN_EXPIRE_MINUTES` (in seconds), it
yields an absent result. -/
theorem access_token_roundtrip (s : Settings) (now later : Nat) (data : Claims)
    (sub email : String) (hsub : data.sub = some sub) (hemail : data.email = some email)
    (hlater : now + s.ACCESS_TOKEN_EXPIRE_MINUTES * 60 < later) :
    (∃ c, verify_token s now (create_access_token s now data none) = some c
        ∧ c.type = some "access" ∧ c.sub = some sub ∧ c.email = some email)
  ∧ verify_token s later (create_access_token s now data none) = none := by
  have hv := verify_create_access s now now data
  have hv2 := verify_create_access s now later data
  have hlt : ¬ now + s.ACCESS_TOKEN_EXPIRE_MINUTES * 60 < now := by omega
  rw [if_neg hlt] at hv
  rw [if_pos hlater] at hv2
  exact ⟨⟨_, hv, rfl, hsub, hemail⟩, hv2⟩

/-- Witness for C5 at a concrete claim set, key and clock. -/
theorem access_token_roundtrip_witness :
    (∃ c, verify_token ⟨"k", 30, 7⟩ 1000
        (create_access_token ⟨"k", 30, 7⟩ 1000
          ⟨some "u1", some "a@b.c", none, none⟩ none) = some c
      ∧ c.type = some "access" ∧ c.sub = some "u1" ∧ c.email = some "a@b.c")
  ∧ verify_token ⟨"k", 30, 7⟩ 2801
      (create_access_token ⟨"k", 30, 7⟩ 1000
        ⟨some "u1", some "a@b.c", none, none⟩ none) = none :=
  access_token_roundtrip ⟨"k", 30, 7⟩ 1000 2801
    ⟨some "u1", some "a@b.c", none, none⟩ "u1" "a@b.c" rfl rfl (by decide)

/-- On the success path (verified refresh-type token, existing active
user), `refresh_access_token` returns a fresh default-lifetime access
token for the user together with token type `"bearer"`. -/
theorem refresh_success_eq (s : Settings) (now : Nat) (db : Db) (t : Token)
    (p : Claims) (u : User) (hv : verify_token s now t = some p)
    (ht : p.type = some "refresh")
    (hu : p.sub.bind (fun uid => get_user_by_id db uid) = some u)
    (ha : u.is_active = true) :
    refresh_access_token s now db t =
      Except.ok
        (create_access_token s now ⟨some u.id, some u.email, none, none⟩ none, "bearer") := by
  simp [refresh_access_token, hv, ht, hu, ha]

/-- `refresh_access_token` raises `AuthenticationError` exactly when
verification fails, the `type` claim is not `"refresh"`, no user is
referenced or found, or the found user is inactive. -/
theorem refresh_error_charac (s : Settings) (now : Nat) (db : Db) (t : Token) :
    (∃ msg, refresh_access_token s now db t = Except.error msg) ↔
      (verify_token s now t = none
        ∨ ∃ p, verify_token s now t = some p ∧
            (p.type ≠ some "refresh"
              ∨ p.sub.bind (fun uid => get_user_by_id db uid) = none
              ∨ ∃ u, p.sub.bind (fun uid => get_user_by_id db uid) = some u
                  ∧ u.is_active = false)) := by
  cases hv : verify_token s now t with
  | none =>
    exact iff_of_true ⟨"Invalid refresh token", by simp [refresh_access_token, hv]⟩
      (Or.inl rfl)
  | some p =>
    by_cases ht : p.type = some "refresh"
    · cases hu : p.sub.bind (fun uid => get_user_by_id db uid) with
      | none =>
        refine iff_of_true
          ⟨"User not found or inactive", by simp [refresh_access_token, hv, ht, hu]⟩ ?_
        exact Or.inr ⟨p, rfl, Or.inr (Or.inl hu)⟩
      | some u =>
        by_cases ha : u.is_active = true
        · refine iff_of_false ?_ ?_
          · rintro ⟨msg, hmsg⟩
            rw [refresh_success_eq s now db t p u hv ht hu ha] at hmsg
            exact Except.noConfusion hmsg
          · rintro (hnone | ⟨p', hp', hcase⟩)
            · exact Option.noConfusion hnone
            · injection hp' with hpp
              subst hpp
              rcases hcase with hty | hun | ⟨u', hu', ha'⟩
              · exact hty ht
              · rw [hu] at hun
                exact Option.noConfusion hun
              · rw [hu] at hu'
                injection hu' with huu
                subst huu
                rw [ha] at ha'
                exact Bool.noConfusion ha'
        · have ha2 : u.is_active = false := by
            cases hb : u.is_active
            · rfl
            · exact absurd hb ha
          refine iff_of_true
            ⟨"User not found or inactive",
              by simp [refresh_access_token, hv, ht, hu, ha2]⟩ ?_
          exact Or.inr ⟨p, rfl, Or.inr (Or.inr ⟨u, hu, ha2⟩)⟩
    · refine iff_of_true ⟨"Invalid refresh token", by simp [refresh_access_token, hv, ht]⟩ ?_
      exact Or.inr ⟨p, rfl, Or.inl ht⟩

/-- C3: `refresh_access_token` fails with an authentication error if
and only if token verification fails, the `type` claim is not
`"refresh"` (in particular a validly signed access token, whose `type`
is `"access"`, is rejected), the referenced user does not exist (no
`sub` claim, or no row with that id), or the user is inactive; on
success it returns exactly a fresh default-lifetime access token for
the user together with token type `"bearer"` — the result carries no
refresh token, so the refresh token is neither rotated nor
returned. -/
theorem refresh_access_token_spec (s : Settings) (now : Nat) (db : Db) (t : Token) :
    ((∃ msg, refresh_access_token s now db t = Except.error msg) ↔
      (verify_token s now t = none
        ∨ ∃ p, verify_token s now t = some p ∧
            (p.type ≠ some "refresh"
              ∨ p.sub.bind (fun uid => get_user_by_id db uid) = none
              ∨ ∃ u, p.sub.bind (fun uid => get_user_by_id db uid) = some u
                  ∧ u.is_active = false)))
  ∧ (∀ p u, verify_token s now t = some p → p.type = some "refresh" →
      p.sub.bind (fun uid => get_user_by_id db uid) = some u → u.is_active = true →
      refresh_access_token s now db t =
        Except.ok
          (create_access_token s now ⟨some u.id, some u.email, none, none⟩ none, "bearer")) :=
  ⟨refresh_error_charac s now db t,
   fun p u hv ht hu ha => refresh_success_eq s now db t p u hv ht hu ha⟩

/-- A stored user row shared by the concrete witnesses: active,
verified, with a linked Google id. -/
def activeUser : User :=
  { id := "u1"
    email := "a@b.c"
    full_name := some "Ada"
    avatar_url := none
    google_id := some "g1"
    telegram_id := none
    github_id := none
    preferred_language := "en"
    timezone := "UTC"
    country := none
    is_active := true
    is_verified := true
    is_premium := false
    created_at := some 0
    updated_at := none
    last_login := some 5 }

/-- Witness for C3: a concrete refresh token of a stored active user
is exchanged for a fresh bearer access token. -/
theorem refresh_access_token_spec_witness :
    refresh_access_token ⟨"k", 30, 7⟩ 1000 [activeUser]
        (Token.signed ⟨some "u1", none, some 2000, some "refresh"⟩ "k") =
      Except.ok
        (create_access_token ⟨"k", 30, 7⟩ 1000 ⟨some "u1", some "a@b.c", none, none⟩ none,
         "bearer") :=
  (refresh_access_token_spec ⟨"k", 30, 7⟩ 1000 [activeUser]
      (Token.signed ⟨some "u1", none, some 2000, some "refresh"⟩ "k")).2
    ⟨some "u1", none, some 2000, some "refresh"⟩ activeUser
    (by decide) rfl (by decide) rfl

/-- Looking a user up by an id that no stored row carries yields no
row; in particular, under the schema invariant that primary keys are
non-empty UUID strings, looking up the empty id fails. -/
theorem get_user_by_id_empty (db : Db) (hid : ∀ w ∈ db, w.id ≠ "") :
    get_user_by_id db "" = none := by
  refine List.find?_eq_none.mpr (fun w hw => ?_)
  simpa using hid w hw

/-- On the success path (verified access-type token with a non-empty
`sub` claim naming a stored active user), `get_current_user` returns
that user row. -/
theorem get_current_user_success_eq (s : Settings) (now : Nat) (db : Db) (t : Token)
    (p : Claims) (uid : String) (u : User)
    (hv : verify_token s now t = some p) (ht : p.type = some "access")
    (hsub : p.sub = some uid) (hu : get_user_by_id db uid = some u)
    (ha : u.is_active = true) (hid : ∀ w ∈ db, w.id ≠ "") :
    get_current_user s now db t = some u := by
  have huid : uid ≠ "" := by
    have hmem := List.mem_of_find?_eq_some hu
    have hp := List.find?_some hu
    have heq : u.id = uid := by simpa using hp
    rw [← heq]
    exact hid u hmem
  simp [get_current_user, hv, ht, hsub, huid, hu, ha]

/-- `get_current_user` returns an absent result exactly when token
verification fails, the `type` claim is not `"access"`, the `sub`
claim is missing, the referenced user does not exist, or the user is
inactive (under the schema invariant that ids are non-empty). -/
theorem get_current_user_none_charac (s : Settings) (now : Nat) (db : Db) (t : Token)
    (hid : ∀ w ∈ db, w.id ≠ "") :
    get_current_user s now db t = none ↔
      (verify_token s now t = none
        ∨ ∃ p, verify_token s now t = some p ∧
            (p.type ≠ some "access" ∨ p.sub = none
              ∨ p.sub.bind (fun uid => get_user_by_id db uid) = none
              ∨ ∃ u, p.sub.bind (fun uid => get_user_by_id db uid) = some u
                  ∧ u.is_active = false)) := by
  cases hv : verify_token s now t with
  | none => exact iff_of_true (by simp [get_current_user, hv]) (Or.inl rfl)
  | some p =>
    by_cases ht : p.type = some "access"
    · cases hsub : p.sub with
      | none =>
        refine iff_of_true (by simp [get_current_user, hv, ht, hsub]) ?_
        exact Or.inr ⟨p, rfl, Or.inr (Or.inl hsub)⟩
      | some uid =>
        by_cases hemp : uid = ""
        · subst hemp
          refine iff_of_true (by simp [get_current_user, hv, ht, hsub]) ?_
          refine Or.inr ⟨p, rfl, Or.inr (Or.inr (Or.inl ?_))⟩
          rw [hsub]
          simpa using get_user_by_id_empty db hid
        · cases hu : get_user_by_id db uid with
          | none =>
            refine iff_of_true (by simp [get_current_user, hv, ht, hsub, hemp, hu]) ?_
            refine Or.inr ⟨p, rfl, Or.inr (Or.inr (Or.inl ?_))⟩
            rw [hsub]
            simpa using hu
          | some u =>
            by_cases ha : u.is_active = true
            · refine iff_of_false ?_ ?_
              · rw [get_current_user_success_eq s now db t p uid u hv ht hsub hu ha hid]
                exact fun h => Option.noConfusion h
              · rintro (hnone | ⟨p', hp', hcase⟩)
                · exact Option.noConfusion hnone
                · injection hp' with hpp
                  subst hpp
                  rcases hcase with hty | hsn | hbn | ⟨u', hu', ha'⟩
                  · exact hty ht
                  · rw [hsub] at hsn
                    exact Option.noConfusion hsn
                  · rw [hsub] at hbn
                    simp only [Option.some_bind] at hbn
                    rw [hu] at hbn
                    exact Option.noConfusion hbn
                  · rw [hsub] at hu'
                    simp only [Option.some_bind] at hu'
                    rw [hu] at hu'
                    injection hu' with huu
                    subst huu
                    rw [ha] at ha'
                    exact Bool.noConfusion ha'
            · have ha2 : u.is_active = false := by
                cases hb : u.is_active
                · rfl
                · exact absurd hb ha
              refine iff_of_true
                (by simp [get_current_user, hv, ht, hsub, hemp, hu, ha2]) ?_
              refine Or.inr ⟨p, rfl, Or.inr (Or.inr (Or.inr ⟨u, ?_, ha2⟩))⟩
              rw [hsub]
              simpa using hu
    · refine iff_of_true (by simp [get_current_user, hv, ht]) ?_
      exact Or.inr ⟨p, rfl, Or.inl ht⟩

/-- C4: under the schema invariant that stored ids (UUIDs) are
non-empty, `get_current_user` returns an absent result — it is a total
function into `Option`, so never an error — exactly when the token does
not verify (wrong signature, malformed, or expired), the `type` claim
is not `"access"`, the `sub` claim is missing, the referenced user
does not exist, or the user's `is_active` is false; otherwise it
returns the corresponding active user record. -/
theorem get_current_user_spec (s : Settings) (now : Nat) (db : Db) (t : Token)
    (hid : ∀ w ∈ db, w.id ≠ "") :
    (get_current_user s now db t = none ↔
      (verify_token s now t = none
        ∨ ∃ p, verify_token s now t = some p ∧
            (p.type ≠ some "access" ∨ p.sub = none
              ∨ p.sub.bind (fun uid => get_user_by_id db uid) = none
              ∨ ∃ u, p.sub.bind (fun uid => get_user_by_id db uid) = some u
                  ∧ u.is_active = false)))
  ∧ (∀ p uid u, verify_token s now t = some p → p.type = some "access" →
      p.sub = some uid → get_user_by_id db uid = some u → u.is_active = true →
      get_current_user s now db t = some u) :=
  ⟨get_current_user_none_charac s now db t hid,
   fun p uid u hv ht hsub hu ha =>
     get_current_user_success_eq s now db t p uid u hv ht hsub hu ha hid⟩

/-- Witness for C4: with one stored active user, a valid access token
resolves to that user, and a wrongly-signed token resolves to
nothing. -/
theorem get_current_user_spec_witness :
    get_current_user ⟨"k", 30, 7⟩ 1000 [activeUser]
        (Token.signed ⟨some "u1", some "a@b.c", some 2000, some "access"⟩ "k") =
      some activeUser
  ∧ get_current_user ⟨"k", 30, 7⟩ 1000 [activeUser]
      (Token.signed ⟨some "u1", some "a@b.c", some 2000, some "access"⟩ "wrong") = none :=
  ⟨(get_current_user_spec ⟨"k", 30, 7⟩ 1000 [activeUser]
        (Token.signed ⟨some "u1", some "a@b.c", some 2000, some "access"⟩ "k")
        (by decide)).2
      ⟨some "u1", some "a@b.c", some 2000, some "access"⟩ "u1" activeUser
      (by decide) rfl rfl (by decide) rfl,
   (get_current_user_spec ⟨"k", 30, 7⟩ 1000 [activeUser]
        (Token.signed ⟨some "u1", some "a@b.c", some 2000, some "access"⟩ "wrong")
        (by decide)).1.mpr (Or.inl (by decide))⟩

/-- Branch of `resolve_google_user` where the lookup by google_id
hits: the stored user is reused, with `last_login` refreshed and the
commit's `updated_at` stamp applied. -/
theorem resolve_branch_google_hit (now : Nat) (new_id : String) (db : Db)
    (gd : GoogleData) (u : User)
    (hg : get_user_by_google_id db gd.google_id = some u) :
    resolve_google_user now new_id db gd =
      ({ u with last_login := some now, updated_at := some now },
       db.map (fun x => if x.id = u.id then
         { u with last_login := some now, updated_at := some now } else x)) := by
  simp [resolve_google_user, hg, update_user_login, commitUser]

/-- Branch of `resolve_google_user` where the google_id lookup misses
but the email lookup hits: the google_id is linked onto the stored
user and committed (an UPDATE, stamping `updated_at`), then its
`last_login` is refreshed by a second commit (stamping again). -/
theorem resolve_branch_email_hit (now : Nat) (new_id : String) (db : Db)
    (gd : GoogleData) (u : User)
    (hg : get_user_by_google_id db gd.google_id = none)
    (he : get_user_by_email db gd.email = some u) :
    resolve_google_user now new_id db gd =
      ({ u with google_id := some gd.google_id, last_login := some now,
                updated_at := some now },
       (db.map (fun x => if x.id = u.id then
           { u with google_id := some gd.google_id, updated_at := some now } else x)).map
         (fun x => if x.id = u.id then
           { u with google_id := some gd.google_id, last_login := some now,
                    updated_at := some now }
           else x)) := by
  simp [resolve_google_user, hg, he, update_user_login, commitUser]

/-- Branch of `resolve_google_user` where both lookups miss: a fresh
user row is created from the Google data and appended, then its
`last_login` is refreshed. -/
theorem resolve_branch_create (now : Nat) (new_id : String) (db : Db) (gd : GoogleData)
    (hg : get_user_by_google_id db gd.google_id = none)
    (he : get_user_by_email db gd.email = none) :
    resolve_google_user now new_id db gd =
      update_user_login now (create_user_from_google now new_id db gd).2
        (create_user_from_google now new_id db gd).1 := by
  simp [resolve_google_user, hg, he]

/-- In every branch of user resolution, the resolved user's
`last_login` is the current time. -/
theorem resolve_google_user_last_login (now : Nat) (new_id : String) (db : Db)
    (gd : GoogleData) :
    (resolve_google_user now new_id db gd).1.last_login = some now := by
  cases hg : get_user_by_google_id db gd.google_id with
  | some u => rw [resolve_branch_google_hit now new_id db gd u hg]
  | none =>
    cases he : get_user_by_email db gd.email with
    | some u => rw [resolve_branch_email_hit now new_id db gd u hg he]
    | none =>
      rw [resolve_branch_create now new_id db gd hg he]
      rfl

/-- C2: Google user resolution follows exactly the documented steps:
(1) a user found by google_id is used as-is (`last_login` refreshed
and the commit's schema-level `updated_at` stamp applied, no row
added); (2) otherwise a user found by email gets the google_id linked
onto the existing row without a second record being created; (3)
otherwise exactly one new user is created, with `is_verified` taken
from the provider's email-verified flag and `last_login = now`; and
(4) in every case the resolved user's `last_login` is updated to
now. -/
theorem google_user_resolution_spec (now : Nat) (new_id : String) (db : Db)
    (gd : GoogleData) :
    (∀ u, get_user_by_google_id db gd.google_id = some u →
        (resolve_google_user now new_id db gd).1 =
          { u with last_login := some now, updated_at := some now }
        ∧ ((resolve_google_user now new_id db gd).2).length = db.length)
  ∧ (∀ u, get_user_by_google_id db gd.google_id = none →
        get_user_by_email db gd.email = some u →
        (resolve_google_user now new_id db gd).1 =
          { u with google_id := some gd.google_id, last_login := some now,
                   updated_at := some now }
        ∧ ((resolve_google_user now new_id db gd).2).length = db.length)
  ∧ (get_user_by_google_id db gd.google_id = none →
      get_user_by_email db gd.email = none →
        (resolve_google_user now new_id db gd).1.is_verified = gd.email_verified
        ∧ (resolve_google_user now new_id db gd).1.email = gd.email
        ∧ (resolve_google_user now new_id db gd).1.google_id = some gd.google_id
        ∧ (resolve_google_user now new_id db gd).1.last_login = some now
        ∧ ((resolve_google_user now new_id db gd).2).length = db.length + 1)
  ∧ (resolve_google_user now new_id db gd).1.last_login = some now := by
  refine ⟨?_, ?_, ?_, resolve_google_user_last_login now new_id db gd⟩
  · intro u hg
    rw [resolve_branch_google_hit now new_id db gd u hg]
    exact ⟨rfl, by simp⟩
  · intro u hg he
    rw [resolve_branch_email_hit now new_id db gd u hg he]
    exact ⟨rfl, by simp⟩
  · intro hg he
    rw [resolve_branch_create now new_id db gd hg he]
    exact ⟨rfl, rfl, rfl, rfl,
      by simp [update_user_login, commitUser, create_user_from_google]⟩

/-- A stored user row with no linked google_id, shared by the concrete
witnesses for the email-linking branch. -/
def emailOnlyUser : User :=
  { id := "u2"
    email := "e@x.y"
    full_name := some "Eve"
    avatar_url := some "http://pic"
    google_id := none
    telegram_id := none
    github_id := none
    preferred_language := "en"
    timezone := "UTC"
    country := some "NL"
    is_active := true
    is_verified := false
    is_premium := true
    created_at := some 3
    updated_at := none
    last_login := some 4 }

/-- Witness for C2 at the email-linking branch: a stored user with no
google_id and a Google payload with the same email. -/
theorem google_user_resolution_spec_witness :
    (resolve_google_user 1000 "new" [emailOnlyUser]
        ⟨"g2", "e@x.y", some "Eve2", some "http://pic2", true⟩).1 =
      { emailOnlyUser with google_id := some "g2", last_login := some 1000,
                           updated_at := some 1000 }
  ∧ ((resolve_google_user 1000 "new" [emailOnlyUser]
        ⟨"g2", "e@x.y", some "Eve2", some "http://pic2", true⟩).2).length =
      ([emailOnlyUser] : Db).length :=
  (google_user_resolution_spec 1000 "new" [emailOnlyUser]
      ⟨"g2", "e@x.y", some "Eve2", some "http://pic2", true⟩).2.1
    emailOnlyUser (by decide) (by decide)

/-- C10 counterexample: at a concrete email-linking instance the
resolved row is not the stored row changed only in `google_id` and
`last_login`: the commit's UPDATE also stamps `updated_at` (schema
`onupdate=func.now()`, models/__init__.py:78), which was absent on the
stored row and carries the current time afterwards — so a field other
than `google_id` and `last_login` is modified, refuting the claim as
stated. -/
theorem google_link_frame_counterexample :
    (resolve_google_user 2000 "new2" [emailOnlyUser]
        ⟨"g3", "e@x.y", some "Mallory", none, false⟩).1 ≠
      { emailOnlyUser with google_id := some "g3", last_login := some 2000 }
  ∧ emailOnlyUser.updated_at = none
  ∧ (resolve_google_user 2000 "new2" [emailOnlyUser]
        ⟨"g3", "e@x.y", some "Mallory", none, false⟩).1.updated_at = some 2000 := by
  decide

/-- C10 (amended): when Google authentication resolves an existing
user by email match, the only fields of that row that are modified are
`google_id`, `last_login`, and — via the schema's `onupdate=func.now()`
stamp applied on every UPDATE — `updated_at`; the Lean record update
fixes every other field (email, full_name, avatar_url, is_verified,
is_premium, is_active, …), so the Google payload's name, picture and
email-verified flag are not written onto the existing record; and
every row of the resulting database is either that updated row or an
unchanged row of the original database. -/
theorem google_link_frame (now : Nat) (new_id : String) (db : Db) (gd : GoogleData)
    (u : User)
    (hg : get_user_by_google_id db gd.google_id = none)
    (he : get_user_by_email db gd.email = some u) :
    (resolve_google_user now new_id db gd).1 =
      { u with google_id := some gd.google_id, last_login := some now,
               updated_at := some now }
  ∧ ∀ x ∈ (resolve_google_user now new_id db gd).2,
      x = { u with google_id := some gd.google_id, last_login := some now,
                   updated_at := some now }
      ∨ x ∈ db := by
  rw [resolve_branch_email_hit now new_id db gd u hg he]
  refine ⟨rfl, ?_⟩
  intro x hx
  simp only [List.mem_map] at hx
  obtain ⟨a, ⟨b, hb, hba⟩, hax⟩ := hx
  subst hba
  subst hax
  by_cases hbid : b.id = u.id
  · rw [if_pos hbid, if_pos rfl]
    exact Or.inl rfl
  · rw [if_neg hbid, if_neg hbid]
    exact Or.inr hb

/-- Witness for C10: concrete email-linking instance; the updated row
is in the resulting database and satisfies the frame disjunction. -/
theorem google_link_frame_witness :
    (resolve_google_user 2000 "new2" [emailOnlyUser]
        ⟨"g3", "e@x.y", some "Mallory", none, false⟩).1 =
      { emailOnlyUser with google_id := some "g3", last_login := some 2000,
                           updated_at := some 2000 }
  ∧ ({ emailOnlyUser with google_id := some "g3", last_login := some 2000,
                          updated_at := some 2000 } =
        { emailOnlyUser with google_id := some "g3", last_login := some 2000,
                             updated_at := some 2000 }
      ∨ ({ emailOnlyUser with google_id := some "g3", last_login := some 2000,
                              updated_at := some 2000 } : User)
          ∈ ([emailOnlyUser] : Db)) :=
  ⟨(google_link_frame 2000 "new2" [emailOnlyUser]
      ⟨"g3", "e@x.y", some "Mallory", none, false⟩ emailOnlyUser
      (by decide) (by decide)).1,
   (google_link_frame 2000 "new2" [emailOnlyUser]
      ⟨"g3", "e@x.y", some "Mallory", none, false⟩ emailOnlyUser
      (by decide) (by decide)).2
     { emailOnlyUser with google_id := some "g3", last_login := some 2000,
                          updated_at := some 2000 } (by decide)⟩

/-- A stored user row that has been soft-deactivated
(`is_active = false`) but still carries a linked google_id. -/
def inactiveUser : User :=
  { id := "u3"
    email := "c@d.e"
    full_name := none
    avatar_url := none
    google_id := some "g9"
    telegram_id := none
    github_id := none
    preferred_language := "en"
    timezone := "UTC"
    country := none
    is_active := false
    is_verified := true
    is_premium := false
    created_at := some 0
    updated_at := none
    last_login := some 1 }

/-- The verified Google identity data of that deactivated user: same
google_id and email, as produced by a valid Google ID token. -/
def inactiveUserGoogleData : GoogleData :=
  { google_id := "g9"
    email := "c@d.e"
    full_name := none
    avatar_url := none
    email_verified := true }

/-- C1: evaluation of `authenticate_with_google` at a database whose
only user is deactivated (`is_active = false`) and a valid Google
payload resolving to that user: the flow does not fail — it returns a
full bearer token pair (signed access and refresh tokens for the
inactive user) — because, unlike `refresh_access_token` and
`get_current_user`, it performs no `is_active` check. -/
theorem google_auth_issues_tokens_for_inactive_user :
    inactiveUser.is_active = false
  ∧ (authenticate_with_google ⟨"k", 30, 7⟩ 1000 "new3" [inactiveUser]
      inactiveUserGoogleData).1.token_type = "bearer"
  ∧ (authenticate_with_google ⟨"k", 30, 7⟩ 1000 "new3" [inactiveUser]
      inactiveUserGoogleData).1.access_token =
      Token.signed ⟨some "u3", some "c@d.e", some 2800, some "access"⟩ "k"
  ∧ (authenticate_with_google ⟨"k", 30, 7⟩ 1000 "new3" [inactiveUser]
      inactiveUserGoogleData).1.refresh_token =
      Token.signed ⟨some "u3", none, some 605800, some "refresh"⟩ "k"
  ∧ (authenticate_with_google ⟨"k", 30, 7⟩ 1000 "new3" [inactiveUser]
      inactiveUserGoogleData).1.user_id = inactiveUser.id := by decide

/-- C7: the `/auth/me` response contains exactly the documented public
keys, in particular none of the internal identity-link attributes
`google_id`, `telegram_id`, `github_id` ever appears, whatever the user
record holds. -/
theorem me_projection_contains_exactly_public_fields (u : User) :
    (Endpoints.get_current_user_info u).map Prod.fst =
      ["id", "email", "full_name", "avatar_url", "is_verified", "is_premium",
       "preferred_language", "created_at", "last_login"]
  ∧ "google_id" ∉ (Endpoints.get_current_user_info u).map Prod.fst
  ∧ "telegram_id" ∉ (Endpoints.get_current_user_info u).map Prod.fst
  ∧ "github_id" ∉ (Endpoints.get_current_user_info u).map Prod.fst := by
  have h : (Endpoints.get_current_user_info u).map Prod.fst =
      ["id", "email", "full_name", "avatar_url", "is_verified", "is_premium",
       "preferred_language", "created_at", "last_login"] := rfl
  refine ⟨h, ?_, ?_, ?_⟩ <;> rw [h] <;> decide

/-- C8: the CORS-origins validator maps the comma-separated string
`"https://a.example,https://b.example"` to the list of the two origins
(stripping surrounding whitespace from every piece), returns any list
unchanged, and raises `ValueError` — failing configuration load — on a
value that is neither a string nor a list. -/
theorem cors_origins_assembly_spec :
    Config.assemble_cors_origins
        (Config.CorsValue.str "https://a.example,https://b.example".data) =
      Except.ok (Config.CorsValue.strList
        ["https://a.example".data, "https://b.example".data])
  ∧ Config.assemble_cors_origins
        (Config.CorsValue.str " https://a.example , https://b.example ".data) =
      Except.ok (Config.CorsValue.strList
        ["https://a.example".data, "https://b.example".data])
  ∧ (∀ l, Config.assemble_cors_origins (Config.CorsValue.strList l) =
      Except.ok (Config.CorsValue.strList l))
  ∧ (∃ msg, Config.assemble_cors_origins Config.CorsValue.other = Except.error msg) :=
  ⟨rfl, rfl, fun _ => rfl, ⟨"ValueError", rfl⟩⟩

/-- C9: evaluation at the failing configuration — SMTP_HOST, SMTP_PORT
and EMAILS_FROM_EMAIL all present and truthy, while EMAILS_FROM_NAME
and EMAILS_ENABLED are not supplied in the environment (the normal
case).  Because pydantic v1 skips a validator declared without
`always=True` when its field is unsupplied, the loaded
EMAILS_FROM_NAME stays `None` (not PROJECT_NAME) and the loaded
EMAILS_ENABLED stays `False`, contradicting the claim — although the
validator bodies compute exactly the documented defaulting and
derivation, showing the claim captures the code's intent and the
missing `always=True` is the slip. -/
theorem email_settings_validators_skipped_when_unset :
    Config.load_EMAILS_FROM_NAME none "MicroCode API" = none
  ∧ Config.load_EMAILS_ENABLED false (some "smtp.example.com") (some 587)
      (some "noreply@example.com") = false
  ∧ Config.get_project_name none "MicroCode API" = "MicroCode API"
  ∧ Config.get_emails_enabled (some "smtp.example.com") (some 587)
      (some "noreply@example.com") = true := by decide

end MicrocodeApi
